import Mathlib

/-!
Verification development for the sentiment-chat server
(`sentiment-chat/server.py`).

The embedding is a shallow translation of the server's pure logic:

* Python dicts used as message envelopes become the `Envelope` structure
  (the five wire fields of the schema).
* The global `clients` dict (an insertion-ordered map from stream writer to
  username) becomes an association list `Registry` over opaque numeric
  writer handles.
* `json.dumps(message) + '\n'` / `json.loads` become `encodeLine` /
  `decodeLine`, a line-delimited codec for the envelope schema.  Fields are
  emitted in the insertion order the server uses when it builds its dicts
  (`timestamp`, `username`, `type`, `message`, `sentiment`), matching
  `json.dumps` on those dicts.
* Machine floats are modelled exactly where the server manipulates them:
  collaborator scores are rationals, and the stored sentiment score
  (`round(score, 2)` in the source) is the integer count of hundredths.
* Write failures (`ConnectionError` on `writer.write`/`drain`) are modelled
  by a predicate `dead : WriterId → Bool` saying which peers' writes fail.
* Fallible operations (`del` on a missing key) return `Except`.
-/

/-- Wire values of the `type` field of an envelope. -/
inductive MsgType where
  | login
  | chat_message
  | server_notification
  | server_response
  | error
deriving DecidableEq, Repr

/-- The `sentiment` sub-object `{label, score}` attached to chat messages.
`score` is the number of hundredths: the server stores `round(score, 2)`,
a float with two decimal places, which we model as an integer count of
hundredths (so Python `0.99` is `99`). -/
structure Sentiment where
  label : String
  score : ℤ
deriving DecidableEq, Repr

/-- A message envelope: the dict exchanged over the wire.  All fields but
`type` are optional, as in the schema. -/
structure Envelope where
  type : MsgType
  username : Option String := none
  message : Option String := none
  sentiment : Option Sentiment := none
  timestamp : Option String := none
deriving DecidableEq, Repr

/-- The double-quote character. -/
def dq : Char := Char.ofNat 34

/-- The backslash character. -/
def bs : Char := Char.ofNat 92

/-- The opening curly-brace character. -/
def lb : Char := Char.ofNat 123

/-- The closing curly-brace character. -/
def rb : Char := Char.ofNat 125

/-- A single-quote (apostrophe) as a string, used in server message texts. -/
def apos : String := String.singleton (Char.ofNat 39)

/-- JSON string escaping as it applies to the characters the codec must
protect: the double quote and the backslash are prefixed with a backslash,
all other characters pass through. -/
def escapeChars : List Char → List Char
  | [] => []
  | c :: cs =>
    if c = dq ∨ c = bs then bs :: c :: escapeChars cs
    else c :: escapeChars cs

/-- Encoding of a JSON string literal: quoted, body escaped. -/
def jstr (s : String) : List Char := dq :: (escapeChars s.data ++ [dq])

/-- Encoding of an object key followed by `json.dumps`'s default
key/value separator, i.e. `"key": `. -/
def keyChars (k : String) : List Char := dq :: (k.data ++ [dq, ':', ' '])

/-- Wire name of each envelope type. -/
def typeName : MsgType → String
  | .login => "login"
  | .chat_message => "chat_message"
  | .server_notification => "server_notification"
  | .server_response => "server_response"
  | .error => "error"

/-- Decimal rendering of a two-decimal score, as Python prints the float
`round(score, 2)`: `k` hundredths become `u.f` with the trailing zero of
the fraction dropped (`99 ↦ 0.99`, `50 ↦ 0.5`, `100 ↦ 1.0`). -/
def encodeScore (k : Nat) : List Char :=
  let u := k / 100
  let f := k % 100
  Nat.digitChar u :: '.' ::
    (if f % 10 = 0 then [Nat.digitChar (f / 10)]
     else [Nat.digitChar (f / 10), Nat.digitChar (f % 10)])

/-- Characters of an optional field the encoder writes before `type`:
when present it carries the trailing `", "` separator. -/
def fieldBeforeChars (key : String) (v : Option String) : List Char :=
  match v with
  | none => []
  | some t => keyChars key ++ (jstr t ++ [',', ' '])

/-- Characters of an optional field the encoder writes after `type`:
when present it carries the leading `", "` separator. -/
def fieldAfterChars (key : String) (v : Option String) : List Char :=
  match v with
  | none => []
  | some m => ',' :: ' ' :: (keyChars key ++ jstr m)

/-- Characters of the optional trailing `sentiment` object. -/
def sentimentChars (v : Option Sentiment) : List Char :=
  match v with
  | none => []
  | some s =>
    ',' :: ' ' :: (keyChars "sentiment" ++ (lb :: (keyChars "label" ++
      (jstr s.label ++ (',' :: ' ' :: (keyChars "score" ++
        (encodeScore s.score.toNat ++ [rb])))))))

/-- Characters of `json.dumps(envelope)` for the dicts the server builds,
followed by the `'\n'` record delimiter it appends.  Field order is the
insertion order of those dicts: `timestamp`, `username` (when the envelope
was built from the dispatcher's base response), then `type`, `message`,
and `sentiment`. -/
def encodeEnvChars (e : Envelope) : List Char :=
  lb ::
  (fieldBeforeChars "timestamp" e.timestamp ++
    (fieldBeforeChars "username" e.username ++
      (keyChars "type" ++
        (jstr (typeName e.type) ++
          (fieldAfterChars "message" e.message ++
            (sentimentChars e.sentiment ++ [rb, '\n']))))))

/-- Encoder of the codec: `json.dumps(message) + '\n'`. -/
def encodeLine (e : Envelope) : String := String.mk (encodeEnvChars e)

/-- Match a literal character sequence at the head of the input, returning
the rest on success. -/
def matchLit : List Char → List Char → Option (List Char)
  | [], cs => some cs
  | _ :: _, [] => none
  | l :: ls, c :: cs => if c = l then matchLit ls cs else none

/-- Parse the body of a JSON string literal up to the closing quote,
undoing `escapeChars`. -/
def parseStringBody : List Char → Option (List Char × List Char)
  | [] => none
  | c :: cs =>
    if c = dq then some ([], cs)
    else if c = bs then
      match cs with
      | [] => none
      | d :: cs2 =>
        if d = dq ∨ d = bs then
          match parseStringBody cs2 with
          | none => none
          | some (s, r) => some (d :: s, r)
        else none
    else
      match parseStringBody cs with
      | none => none
      | some (s, r) => some (c :: s, r)

/-- Parse a JSON string literal. -/
def parseJString (cs : List Char) : Option (String × List Char) :=
  match matchLit [dq] cs with
  | none => none
  | some cs1 =>
    match parseStringBody cs1 with
    | none => none
    | some (s, r) => some (String.mk s, r)

/-- Recover an envelope type from its wire name. -/
def msgTypeNamed (s : String) : Option MsgType :=
  if s = "login" then some .login
  else if s = "chat_message" then some .chat_message
  else if s = "server_notification" then some .server_notification
  else if s = "server_response" then some .server_response
  else if s = "error" then some .error
  else none

/-- Parse a two-decimal score: a digit, a dot, then one or two digits,
yielding the count of hundredths. -/
def parseScore (cs : List Char) : Option (Nat × List Char) :=
  match cs with
  | c1 :: c2 :: c3 :: rest =>
    if c1.isDigit && (c2 == '.') && c3.isDigit then
      let hi := (c1.toNat - 48) * 100 + (c3.toNat - 48) * 10
      match rest with
      | c4 :: rest2 =>
        if c4.isDigit then some (hi + (c4.toNat - 48), rest2)
        else some (hi, rest)
      | [] => some (hi, [])
    else none
  | _ => none

/-- Parse an optional field that the encoder writes before the `type`
field (so, when present, it is followed by the `", "` separator). -/
def parseFieldBefore (key : String) (cs : List Char) :
    Option (Option String × List Char) :=
  match matchLit (keyChars key) cs with
  | none => some (none, cs)
  | some cs1 =>
    match parseJString cs1 with
    | none => none
    | some (s, cs2) =>
      match matchLit [',', ' '] cs2 with
      | none => none
      | some cs3 => some (some s, cs3)

/-- Parse an optional field that the encoder writes after the `type`
field (so, when present, it is preceded by the `", "` separator). -/
def parseFieldAfter (key : String) (cs : List Char) :
    Option (Option String × List Char) :=
  match matchLit (',' :: ' ' :: keyChars key) cs with
  | none => some (none, cs)
  | some cs1 =>
    match parseJString cs1 with
    | none => none
    | some (s, cs2) => some (some s, cs2)

/-- Parse the optional trailing `sentiment` object. -/
def parseSentimentField (cs : List Char) :
    Option (Option Sentiment × List Char) :=
  match matchLit (',' :: ' ' :: (keyChars "sentiment" ++ (lb :: keyChars "label"))) cs with
  | none => some (none, cs)
  | some cs1 =>
    match parseJString cs1 with
    | none => none
    | some (lab, cs2) =>
      match matchLit (',' :: ' ' :: keyChars "score") cs2 with
      | none => none
      | some cs3 =>
        match parseScore cs3 with
        | none => none
        | some (k, cs4) =>
          match matchLit [rb] cs4 with
          | none => none
          | some cs5 => some (some ⟨lab, (k : ℤ)⟩, cs5)

/-- Parse one encoded envelope record; any input that is not a well-formed
record yields `none`. -/
def parseEnvChars (cs : List Char) : Option Envelope :=
  match matchLit [lb] cs with
  | none => none
  | some cs0 =>
    match parseFieldBefore "timestamp" cs0 with
    | none => none
    | some (ts, cs1) =>
      match parseFieldBefore "username" cs1 with
      | none => none
      | some (un, cs2) =>
        match matchLit (keyChars "type") cs2 with
        | none => none
        | some cs3 =>
          match parseJString cs3 with
          | none => none
          | some (tn, cs4) =>
            match msgTypeNamed tn with
            | none => none
            | some ty =>
              match parseFieldAfter "message" cs4 with
              | none => none
              | some (msg, cs5) =>
                match parseSentimentField cs5 with
                | none => none
                | some (sent, cs6) =>
                  match matchLit [rb] cs6 with
                  | none => none
                  | some cs7 =>
                    if cs7.all (fun c => c.isWhitespace) then
                      some { type := ty, username := un, message := msg,
                             sentiment := sent, timestamp := ts }
                    else none

/-- Decoder of the codec: total on arbitrary input, `none` marks a decode
failure (`json.JSONDecodeError` in the source, caught by every caller). -/
def decodeLine (s : String) : Option Envelope := parseEnvChars s.data

/-- An envelope is wire-valid when its sentiment score (if any) is a
two-decimal value in `[0, 1]`, the only scores the server ever stores. -/
def validScore (e : Envelope) : Bool :=
  match e.sentiment with
  | none => true
  | some s => decide (0 ≤ s.score) && decide (s.score ≤ 100)

/-- Connection handles are opaque; we name them by numbers. -/
abbrev WriterId := Nat

/-- The global `clients` dict: an insertion-ordered map from writer handle
to username, modelled as an association list with distinct keys. -/
abbrev Registry := List (WriterId × String)

/-- Membership test, `writer in clients`. -/
def hasClient (w : WriterId) (reg : Registry) : Bool :=
  reg.any (fun p => p.1 == w)

/-- Removal of the (unique) entry of a handle, the effect of a successful
`del clients[writer]`. -/
def removeClient (w : WriterId) (reg : Registry) : Registry :=
  reg.eraseP (fun p => p.1 == w)

/-- Python `del clients[writer]`: raises `KeyError` when the handle is
absent, which we model as `Except.error`. -/
def delClient (w : WriterId) (reg : Registry) : Except Unit Registry :=
  if hasClient w reg then .ok (removeClient w reg) else .error ()

/-- Python `clients[writer] = username`: updates in place when the handle
is present, otherwise appends. -/
def insertClient (w : WriterId) (u : String) (reg : Registry) : Registry :=
  if hasClient w reg then
    reg.map (fun p => if p.1 == w then (p.1, u) else p)
  else reg ++ [(w, u)]

/-- Python `clients.get(writer)`. -/
def lookupClient (w : WriterId) (reg : Registry) : Option String :=
  (reg.find? (fun p => p.1 == w)).map Prod.snd

/-- Fan-out loop of `broadcast` over the snapshot `all_writers`: skip the
sender, write the encoded line to each live recipient, and delete a
recipient from the registry when its write raises `ConnectionError`
(`dead` says whose writes fail).  Returns the `(recipient, bytes)` pairs
successfully written and the resulting registry. -/
def broadcastGo (line : String) (sender : WriterId) (dead : WriterId → Bool) :
    List WriterId → Registry → List (WriterId × String) × Registry
  | [], reg => ([], reg)
  | w :: ws, reg =>
    if w = sender then broadcastGo line sender dead ws reg
    else if dead w then broadcastGo line sender dead ws (removeClient w reg)
    else
      let (d, r) := broadcastGo line sender dead ws reg
      ((w, line) :: d, r)

/-- The server's `broadcast(message, sender_writer)`: returns immediately
unless the envelope's type is `chat_message`; otherwise snapshots the
registry keys and fans the encoded line out to everyone but the sender. -/
def broadcast (message : Envelope) (senderWriter : WriterId) (reg : Registry)
    (dead : WriterId → Bool) : List (WriterId × String) × Registry :=
  if message.type ≠ .chat_message then ([], reg)
  else broadcastGo (encodeLine message) senderWriter dead (reg.map Prod.fst) reg

/-- The server's `send_direct_message`: writes to one client; on
`ConnectionError` removes the client from the registry if still present
(this removal is guarded by `writer in clients`).  Returns whether the
write succeeded, and the resulting registry. -/
def sendDirect (_e : Envelope) (w : WriterId) (reg : Registry)
    (dead : WriterId → Bool) : Bool × Registry :=
  if dead w then (false, if hasClient w reg then removeClient w reg else reg)
  else (true, reg)

/-- Result of one sentiment-collaborator call,
`sentiment_analyzer(text)[0]`.  The raw score is a rational standing for
the classifier's float. -/
structure SentimentResult where
  label : String
  score : ℚ

/-- One extracted entity, `{word, entity_group, score}`. -/
structure NerEntity where
  word : String
  entity_group : String
  score : ℚ
deriving DecidableEq, Repr

/-- The external NLP collaborators as the dispatcher sees them: each
`get_model` call may yield no pipeline (modelled by the availability
flags), and each pipeline is a function of the request. -/
structure Collaborators where
  classify : String → SentimentResult
  translatorAvailable : String → Bool
  translate : String → String → String
  generatorAvailable : Bool
  generate : String → String
  nerAvailable : Bool
  extractEntities : String → List NerEntity

/-- Rounding to nearest with ties to even, the semantics of Python's
`round` on the values at hand. -/
def roundHalfEven (q : ℚ) : ℤ :=
  let f := ⌊q⌋
  if q - f < 1/2 then f
  else if 1/2 < q - f then f + 1
  else if f % 2 = 0 then f else f + 1

/-- Python `round(score, 2)` as a count of hundredths. -/
def round2 (q : ℚ) : ℤ := roundHalfEven (q * 100)

/-- Python `s.strip()`: remove leading and trailing whitespace. -/
def pyStrip (s : String) : String :=
  String.mk (((s.data.dropWhile (fun c => c.isWhitespace)).reverse.dropWhile
    (fun c => c.isWhitespace)).reverse)

/-- Python slicing `s[n:]`, used to model dropping a recognized command
prefix. -/
def pyDrop (s : String) (n : Nat) : String := String.mk (s.data.drop n)

/-- Python `s.split(" ", 2)`: split at the first two single-space
occurrences, leaving the remainder intact. -/
def pySplit2 (s : String) : List String :=
  match s.splitOn " " with
  | [] => [s]
  | [a] => [a]
  | [a, b] => [a, b]
  | a :: b :: rest => [a, b, String.intercalate " " rest]

/-- Python `s.startswith(p)`. -/
def pyStartsWith (p s : String) : Bool := (matchLit p.data s.data).isSome

/-- Output of one dispatcher run: the response envelope it built and
whether the default path also broadcast it. -/
structure DispatchOut where
  response : Envelope
  broadcasted : Bool
deriving DecidableEq, Repr

/-- The command dispatcher (the body of the main loop for one decoded
request): builds `response` from the base `{timestamp, username}` dict,
routes on the prefix of the stripped message text, and says whether the
response is also broadcast.  `pyDrop messageText 9` (resp. `4`) models
`message_text.replace("!generate", "", 1)` (resp. `"!ner"`), which drops
the prefix since the branch guard guarantees the text starts with it. -/
def dispatch (username timestamp messageText : String) (C : Collaborators) :
    DispatchOut :=
  if pyStartsWith "!translate" messageText then
    let parts := pySplit2 messageText
    if parts.length < 3 then
      ⟨{ type := .error, username := some username, timestamp := some timestamp,
         message := some "Usage: !translate <lang_code> <text>" }, false⟩
    else
      let lang := parts.getD 1 ""
      let textToTranslate := parts.getD 2 ""
      if C.translatorAvailable lang then
        ⟨{ type := .server_response, username := some username,
           timestamp := some timestamp,
           message := some ("Translation (en->" ++ lang ++ "): " ++
             C.translate lang textToTranslate) }, false⟩
      else
        ⟨{ type := .error, username := some username, timestamp := some timestamp,
           message := some ("Translation model for " ++ apos ++ lang ++ apos ++
             " not available.") }, false⟩
  else if pyStartsWith "!generate" messageText then
    let prompt := pyStrip (pyDrop messageText 9)
    if C.generatorAvailable ∧ prompt ≠ "" then
      ⟨{ type := .server_response, username := some username,
         timestamp := some timestamp,
         message := some ("Generated Text: " ++ C.generate prompt) }, false⟩
    else
      ⟨{ type := .error, username := some username, timestamp := some timestamp,
         message := some "Usage: !generate <your prompt>" }, false⟩
  else if pyStartsWith "!ner" messageText then
    let text := pyStrip (pyDrop messageText 4)
    if C.nerAvailable ∧ text ≠ "" then
      let entities := C.extractEntities text
      let filteredEntities :=
        (entities.filter (fun en => decide ((0.85 : ℚ) < en.score))).map
          (fun en => en.word ++ " (" ++ en.entity_group ++ ")")
      let resultText :=
        if filteredEntities.isEmpty then "No entities found."
        else String.intercalate ", " filteredEntities
      ⟨{ type := .server_response, username := some username,
         timestamp := some timestamp,
         message := some ("Entities Found: " ++ resultText) }, false⟩
    else
      ⟨{ type := .error, username := some username, timestamp := some timestamp,
         message := some "Usage: !ner <your text>" }, false⟩
  else
    let s := C.classify messageText
    ⟨{ type := .chat_message, username := some username,
       timestamp := some timestamp, message := some messageText,
       sentiment := some ⟨s.label, round2 s.score⟩ }, true⟩

/-- Observable outcome of processing one inbound record: the response
envelope, whether its direct write to the sender succeeded, the broadcast
deliveries, and the registry afterwards. -/
structure StepOut where
  response : Envelope
  directDelivered : Bool
  broadcastDeliv : List (WriterId × String)
  registry : Registry
deriving DecidableEq, Repr

/-- Dispatch a decoded request whose stripped text is `messageText`:
send the response directly to the sender, and, on the default sentiment
path only, broadcast the same envelope to everyone else. -/
def chatStep (username timestamp messageText : String) (C : Collaborators)
    (sender : WriterId) (reg : Registry) (dead : WriterId → Bool) : StepOut :=
  let d := dispatch username timestamp messageText C
  let (ok, reg1) := sendDirect d.response sender reg dead
  if d.broadcasted then
    let (deliv, reg2) := broadcast d.response sender reg1 dead
    ⟨d.response, ok, deliv, reg2⟩
  else ⟨d.response, ok, [], reg1⟩

/-- One inbound post-login record: either bytes that fail to decode, or a
decoded JSON object with (at most) a `type` and a `message` field. -/
inductive InRecord where
  | malformed
  | record (type? : Option String) (message? : Option String)

/-- One iteration of the main message loop on a received line: malformed
JSON is answered with a direct `error` envelope; a decoded record is
dispatched on its stripped `message` text — its `type` field is never
consulted. -/
def mainStep (username timestamp : String) (inp : InRecord) (C : Collaborators)
    (sender : WriterId) (reg : Registry) (dead : WriterId → Bool) : StepOut :=
  match inp with
  | .malformed =>
    let err : Envelope := { type := .error, message := some "Received malformed JSON." }
    let (ok, reg1) := sendDirect err sender reg dead
    ⟨err, ok, [], reg1⟩
  | .record _ m? =>
    chatStep username timestamp (pyStrip (m?.getD "")) C sender reg dead

/-- Decoded form of the first line read from a new connection: end of
stream (`readline` returns empty bytes, so `json.loads` fails), bytes that
are not JSON, a JSON value that is not an object (on which `.get` raises
`AttributeError`), or a JSON object with its `type`/`username` fields. -/
inductive FirstRead where
  | eof
  | badJson
  | nonObject
  | jsonObject (type? : Option String) (username? : Option String)

/-- Terminal states of the handshake: the session is active under a
username, the login was rejected (error sent, connection closed), or the
handler crashed on an uncaught exception. -/
inductive HandshakeOutcome where
  | active (username : String)
  | rejected
  | crashed
deriving DecidableEq, Repr

/-- Observable outcome of the handshake: its terminal state, the
envelopes written directly to the new connection, the deliveries of the
join broadcast, and the registry afterwards. -/
structure LoginResult where
  outcome : HandshakeOutcome
  sentToNew : List Envelope
  joinDelivered : List (WriterId × String)
  registry : Registry
deriving DecidableEq, Repr

/-- The error envelope sent on a failed login attempt. -/
def loginErrorEnv : Envelope :=
  { type := .error,
    message := some ("Invalid login. Please send JSON with " ++ apos ++ "type" ++
      apos ++ ": " ++ apos ++ "login" ++ apos ++ " and " ++ apos ++ "username" ++ apos ++ ".") }

/-- The handshake portion of `handle_client`: the session becomes active
exactly when the first record is a JSON object whose `type` is `"login"`;
the username is then read with default `user_<port>`, the session is
inserted into the registry, a welcome is written to the new connection and
a join notification is passed to `broadcast`.  A wrong type, undecodable
bytes or a closed stream are answered with `loginErrorEnv` and the
connection closes unregistered; a non-object JSON record crashes the
handler (`AttributeError` is not in the caught exception tuple). -/
def handleLogin (fr : FirstRead) (port : Nat) (w : WriterId) (reg : Registry)
    (dead : WriterId → Bool) : LoginResult :=
  match fr with
  | .nonObject => ⟨.crashed, [], [], reg⟩
  | .eof => ⟨.rejected, [loginErrorEnv], [], reg⟩
  | .badJson => ⟨.rejected, [loginErrorEnv], [], reg⟩
  | .jsonObject t? u? =>
    if t? = some "login" then
      let username := u?.getD ("user_" ++ toString port)
      let reg1 := insertClient w username reg
      let welcome : Envelope :=
        { type := .server_notification,
          message := some ("Welcome, " ++ username ++
            "! You are connected to the ML Chat Hub.") }
      let (_, regW) := sendDirect welcome w reg1 dead
      let joinMsg : Envelope :=
        { type := .server_notification,
          message := some ("--- " ++ username ++ " has joined the chat ---") }
      let (deliv, reg2) := broadcast joinMsg w regW dead
      ⟨.active username, [welcome], deliv, reg2⟩
    else ⟨.rejected, [loginErrorEnv], [], reg⟩

/-- The `finally` block of `handle_client`: `del clients[writer]` (which
raises `KeyError` when the handle is already gone), then a departure
notification whose username is looked up in the registry after the
deletion (falling back to `"A user"`), passed to `broadcast`.  Returns the
attempted departure envelope, its deliveries, and the final registry. -/
def disconnectCleanup (w : WriterId) (reg : Registry) (dead : WriterId → Bool) :
    Except Unit (Envelope × List (WriterId × String) × Registry) :=
  match delClient w reg with
  | .error _ => .error ()
  | .ok reg1 =>
    let leaveMsg : Envelope :=
      { type := .server_notification,
        message := some ("--- " ++ ((lookupClient w reg1).getD "A user") ++
          " has left the chat ---") }
    let (deliv, reg2) := broadcast leaveMsg w reg1 dead
    .ok (leaveMsg, deliv, reg2)

/-- A concrete collaborator assignment used to instantiate theorems on
sample inputs: the sentiment pipeline labels everything POSITIVE with raw
score 0.99, and the entity extractor returns one entity whose confidence
is exactly 0.85. -/
def sampleCollab : Collaborators :=
  { classify := fun _ => ⟨"POSITIVE", 99/100⟩,
    translatorAvailable := fun _ => true,
    translate := fun _ t => t,
    generatorAvailable := true,
    generate := fun p => p,
    nerAvailable := true,
    extractEntities := fun _ => [⟨"Bob", "PER", 17/20⟩] }

/-- A concrete envelope with every field populated, used to instantiate
codec theorems. -/
def sampleEnvelope : Envelope :=
  { type := .chat_message, username := some "alice",
    timestamp := some "2024-01-01T00:00:00", message := some "I love this",
    sentiment := some ⟨"POSITIVE", 99⟩ }

/-! Helper lemmas about the codec. -/

theorem mkData (s : String) : String.mk s.data = s := by cases s; rfl

theorem matchLit_self (l cs : List Char) : matchLit l (l ++ cs) = some cs := by
  induction l with
  | nil => rfl
  | cons c ls ih => simp [matchLit, ih]

theorem parseStringBody_escape (s rest : List Char) :
    parseStringBody (escapeChars s ++ (dq :: rest)) = some (s, rest) := by
  induction s with
  | nil =>
    unfold parseStringBody escapeChars
    simp
  | cons c cs ih =>
    by_cases h : c = dq ∨ c = bs
    · rw [escapeChars, if_pos h]
      unfold parseStringBody
      simp [ih, h, show ¬ bs = dq by decide]
    · push_neg at h
      rw [escapeChars, if_neg (by simpa using h)]
      unfold parseStringBody
      simp [ih, h.1, h.2]

theorem parseJString_jstr (s : String) (rest : List Char) :
    parseJString (jstr s ++ rest) = some (s, rest) := by
  have h1 : jstr s ++ rest = dq :: (escapeChars s.data ++ (dq :: rest)) := by
    simp [jstr]
  rw [h1, parseJString]
  rw [show matchLit [dq] (dq :: (escapeChars s.data ++ (dq :: rest))) =
        some (escapeChars s.data ++ (dq :: rest)) by simp [matchLit]]
  simp [parseStringBody_escape, mkData]

theorem digitChar_isDigit (d : Nat) (h : d ≤ 9) : (Nat.digitChar d).isDigit = true := by
  interval_cases d <;> decide

theorem digitChar_toNat (d : Nat) (h : d ≤ 9) : (Nat.digitChar d).toNat - 48 = d := by
  interval_cases d <;> decide

theorem parseScore_encode (k : Nat) (hk : k ≤ 100) (rest : List Char) :
    parseScore (encodeScore k ++ (rb :: rest)) = some (k, rb :: rest) := by
  have hu : k / 100 ≤ 9 := by omega
  have ht : k % 100 / 10 ≤ 9 := by omega
  have ho : k % 100 % 10 ≤ 9 := by omega
  by_cases h0 : k % 100 % 10 = 0
  · have henc : encodeScore k =
        [Nat.digitChar (k / 100), '.', Nat.digitChar (k % 100 / 10)] := by
      rw [encodeScore]; simp [h0]
    rw [henc]
    simp only [List.cons_append, List.nil_append]
    rw [parseScore]
    simp [digitChar_isDigit _ hu, digitChar_isDigit _ ht,
          digitChar_toNat _ hu, digitChar_toNat _ ht,
          show rb.isDigit = false by decide]
    omega
  · have henc : encodeScore k =
        [Nat.digitChar (k / 100), '.', Nat.digitChar (k % 100 / 10),
         Nat.digitChar (k % 100 % 10)] := by
      rw [encodeScore]; simp [h0]
    rw [henc]
    simp only [List.cons_append, List.nil_append]
    rw [parseScore]
    simp [digitChar_isDigit _ hu, digitChar_isDigit _ ht, digitChar_isDigit _ ho,
          digitChar_toNat _ hu, digitChar_toNat _ ht, digitChar_toNat _ ho]
    omega

theorem fieldBefore_present (key : String) (s : String) (rest : List Char) :
    parseFieldBefore key (keyChars key ++ (jstr s ++ (',' :: ' ' :: rest))) =
      some (some s, rest) := by
  rw [parseFieldBefore, matchLit_self]
  simp [parseJString_jstr, matchLit]

theorem fieldBefore_absent (key : String) (cs : List Char)
    (h : matchLit (keyChars key) cs = none) :
    parseFieldBefore key cs = some (none, cs) := by
  rw [parseFieldBefore, h]

theorem fieldAfter_present (key : String) (s : String) (rest : List Char) :
    parseFieldAfter key (',' :: ' ' :: (keyChars key ++ (jstr s ++ rest))) =
      some (some s, rest) := by
  rw [parseFieldAfter]
  rw [show (',' :: ' ' :: (keyChars key ++ (jstr s ++ rest))) =
        (',' :: ' ' :: keyChars key) ++ (jstr s ++ rest) by simp]
  rw [matchLit_self]
  simp [parseJString_jstr]

theorem fieldAfter_absent (key : String) (cs : List Char)
    (h : matchLit (',' :: ' ' :: keyChars key) cs = none) :
    parseFieldAfter key cs = some (none, cs) := by
  rw [parseFieldAfter, h]

theorem mm_ts_user (cs : List Char) :
    matchLit (keyChars "timestamp") (keyChars "username" ++ cs) = none := rfl

theorem mm_ts_type (cs : List Char) :
    matchLit (keyChars "timestamp") (keyChars "type" ++ cs) = none := rfl

theorem mm_user_type (cs : List Char) :
    matchLit (keyChars "username") (keyChars "type" ++ cs) = none := rfl

theorem mm_msg_sent (cs : List Char) :
    matchLit (',' :: ' ' :: keyChars "message")
      (',' :: ' ' :: (keyChars "sentiment" ++ cs)) = none := rfl

theorem mm_msg_rb (cs : List Char) :
    matchLit (',' :: ' ' :: keyChars "message") (rb :: cs) = none := rfl

theorem mm_sent_rb (cs : List Char) :
    matchLit (',' :: ' ' :: (keyChars "sentiment" ++ (lb :: keyChars "label")))
      (rb :: cs) = none := rfl

theorem msgTypeNamed_typeName (t : MsgType) : msgTypeNamed (typeName t) = some t := by
  cases t <;> rfl

theorem sentField_present (lab : String) (k : ℤ) (hk0 : 0 ≤ k) (hk : k ≤ 100)
    (rest : List Char) :
    parseSentimentField (sentimentChars (some ⟨lab, k⟩) ++ rest) =
      some (some ⟨lab, k⟩, rest) := by
  rw [sentimentChars]
  rw [show (',' :: ' ' :: (keyChars "sentiment" ++ (lb :: (keyChars "label" ++
        (jstr lab ++ (',' :: ' ' :: (keyChars "score" ++
          (encodeScore (Sentiment.mk lab k).score.toNat ++ [rb]))))))) ++ rest) =
      (',' :: ' ' :: (keyChars "sentiment" ++ (lb :: keyChars "label"))) ++
        (jstr lab ++ ((',' :: ' ' :: keyChars "score") ++
          (encodeScore k.toNat ++ (rb :: rest)))) by simp]
  rw [parseSentimentField, matchLit_self]
  have hkn : k.toNat ≤ 100 := by omega
  simp [parseJString_jstr, matchLit_self, parseScore_encode _ hkn, matchLit,
        Int.toNat_of_nonneg hk0]

theorem sentField_absent (cs : List Char) :
    parseSentimentField (rb :: cs) = some (none, rb :: cs) := by
  rw [parseSentimentField, mm_sent_rb]

theorem dataMk (l : List Char) : (String.mk l).data = l := rfl

theorem matchLit_lb (cs : List Char) : matchLit [lb] (lb :: cs) = some cs := by
  simp [matchLit]

theorem fieldAfter_msg_sentChars (s : Sentiment) (cs : List Char) :
    parseFieldAfter "message" (sentimentChars (some s) ++ cs) =
      some (none, sentimentChars (some s) ++ cs) := by
  apply fieldAfter_absent
  rw [sentimentChars]
  rw [show (',' :: ' ' :: (keyChars "sentiment" ++ (lb :: (keyChars "label" ++
        (jstr s.label ++ (',' :: ' ' :: (keyChars "score" ++
          (encodeScore s.score.toNat ++ [rb]))))))) ++ cs) =
      (',' :: ' ' :: (keyChars "sentiment" ++ ((lb :: (keyChars "label" ++
        (jstr s.label ++ (',' :: ' ' :: (keyChars "score" ++
          (encodeScore s.score.toNat ++ [rb])))))) ++ cs))) by simp]
  exact mm_msg_sent _

theorem ws_nl : ([ '\n' ].all (fun c => c.isWhitespace)) = true := by decide

theorem decode_encode (e : Envelope) (h : validScore e = true) :
    decodeLine (encodeLine e) = some e := by
  obtain ⟨ty, un, msg, sent, ts⟩ := e
  rw [decodeLine, encodeLine, dataMk, encodeEnvChars, parseEnvChars, matchLit_lb]
  rcases sent with _ | ⟨lab, k⟩
  · cases ts <;> cases un <;> cases msg <;>
      simp [fieldBeforeChars, fieldAfterChars, sentimentChars, fieldBefore_present,
        fieldBefore_absent, mm_ts_user, mm_ts_type, mm_user_type, matchLit_self,
        parseJString_jstr, msgTypeNamed_typeName, fieldAfter_present, fieldAfter_absent,
        mm_msg_sent, mm_msg_rb, sentField_absent, matchLit]
  · have hb : 0 ≤ k ∧ k ≤ 100 := by
      rw [validScore] at h
      simpa using h
    cases ts <;> cases un <;> cases msg <;>
      simp [fieldBeforeChars, fieldAfterChars, fieldBefore_present,
        fieldBefore_absent, mm_ts_user, mm_ts_type, mm_user_type, matchLit_self,
        parseJString_jstr, msgTypeNamed_typeName, fieldAfter_present,
        fieldAfter_msg_sentChars, sentField_present lab k hb.1 hb.2, matchLit, ws_nl]

/-! Helper lemmas about the registry and the broadcast fan-out. -/

theorem broadcastGo_eq (line : String) (sender : WriterId) (dead : WriterId → Bool)
    (ws : List WriterId) (reg : Registry) :
    broadcastGo line sender dead ws reg =
      ((ws.filter (fun w => !(w == sender) && !dead w)).map (fun w => (w, line)),
       (ws.filter (fun w => !(w == sender) && dead w)).foldl
         (fun r w => removeClient w r) reg) := by
  induction ws generalizing reg with
  | nil => rfl
  | cons w ws ih =>
    by_cases hs : w = sender
    · simp [broadcastGo, hs, ih]
    · by_cases hd : dead w
      · simp [broadcastGo, hs, hd, ih]
      · simp [broadcastGo, hs, hd, ih]

theorem broadcast_all_alive (msg : Envelope) (sender : WriterId) (reg : Registry)
    (hty : msg.type = .chat_message) :
    broadcast msg sender reg (fun _ => false) =
      (((reg.map Prod.fst).filter (fun w => !(w == sender))).map
        (fun w => (w, encodeLine msg)), reg) := by
  rw [broadcast, if_neg (by simp [hty]), broadcastGo_eq]
  simp

theorem filter_eq_singleton (w0 : WriterId) (ws : List WriterId)
    (hnd : ws.Nodup) (hmem : w0 ∈ ws) :
    ws.filter (fun w => w == w0) = [w0] := by
  induction ws with
  | nil => simp at hmem
  | cons w ws ih =>
    by_cases hw : w = w0
    · subst hw
      have hnil : ws.filter (fun x => x == w) = [] := by
        rw [List.filter_eq_nil_iff]
        intro a ha
        simp only [beq_iff_eq]
        exact fun hc => (List.nodup_cons.mp hnd).1 (hc ▸ ha)
      simp [List.filter_cons, hnil]
    · have hmem2 : w0 ∈ ws := by
        rcases List.mem_cons.mp hmem with h | h
        · exact absurd h.symm hw
        · exact h
      simp [List.filter_cons, hw, ih (List.nodup_cons.mp hnd).2 hmem2]

theorem length_filter_ne (w0 : WriterId) (ws : List WriterId)
    (hnd : ws.Nodup) (hmem : w0 ∈ ws) :
    (ws.filter (fun w => !(w == w0))).length + 1 = ws.length := by
  induction ws with
  | nil => simp at hmem
  | cons w ws ih =>
    by_cases hw : w = w0
    · subst hw
      have hnil : ws.filter (fun x => !(x == w)) = ws := by
        rw [List.filter_eq_self]
        intro a ha
        simp only [Bool.not_eq_true', beq_eq_false_iff_ne, ne_eq]
        exact fun hc => (List.nodup_cons.mp hnd).1 (hc ▸ ha)
      simp [List.filter_cons, hnil]
    · have hmem2 : w0 ∈ ws := by
        rcases List.mem_cons.mp hmem with h | h
        · exact absurd h.symm hw
        · exact h
      have hih := ih (List.nodup_cons.mp hnd).2 hmem2
      simp [List.filter_cons, hw]
      omega

/-! Helper lemmas about the command dispatcher. -/

theorem matchLit_eq_append (l cs r : List Char) (h : matchLit l cs = some r) :
    cs = l ++ r := by
  induction l generalizing cs with
  | nil => simpa [matchLit] using h
  | cons c ls ih =>
    match cs with
    | [] => simp [matchLit] at h
    | d :: cs2 =>
      rw [matchLit] at h
      by_cases hd : d = c
      · rw [if_pos hd] at h
        simp [hd, ih cs2 h]
      · rw [if_neg hd] at h
        exact absurd h (by simp)

theorem pyStartsWith_ner_shape (s : String) (h : pyStartsWith "!ner" s = true) :
    ∃ r, s.data = '!' :: 'n' :: 'e' :: 'r' :: r := by
  rw [pyStartsWith] at h
  obtain ⟨r, hr⟩ := Option.isSome_iff_exists.mp h
  exact ⟨r, matchLit_eq_append _ _ _ hr⟩

theorem ner_not_translate (s : String) (h : pyStartsWith "!ner" s = true) :
    pyStartsWith "!translate" s = false := by
  obtain ⟨r, hr⟩ := pyStartsWith_ner_shape s h
  rw [pyStartsWith, hr]
  rfl

theorem ner_not_generate (s : String) (h : pyStartsWith "!ner" s = true) :
    pyStartsWith "!generate" s = false := by
  obtain ⟨r, hr⟩ := pyStartsWith_ner_shape s h
  rw [pyStartsWith, hr]
  rfl

theorem dispatch_default (u ts text : String) (C : Collaborators)
    (h1 : pyStartsWith "!translate" text = false)
    (h2 : pyStartsWith "!generate" text = false)
    (h3 : pyStartsWith "!ner" text = false) :
    dispatch u ts text C =
      ⟨{ type := .chat_message, username := some u, timestamp := some ts,
         message := some text,
         sentiment := some ⟨(C.classify text).label, round2 (C.classify text).score⟩ },
       true⟩ := by
  rw [dispatch]
  simp [h1, h2, h3]

theorem dispatch_ner (u ts text : String) (C : Collaborators)
    (h : pyStartsWith "!ner" text = true)
    (ha : C.nerAvailable = true)
    (hne : pyStrip (pyDrop text 4) ≠ "") :
    dispatch u ts text C =
      ⟨{ type := .server_response, username := some u, timestamp := some ts,
         message := some ("Entities Found: " ++
           (let fe := ((C.extractEntities (pyStrip (pyDrop text 4))).filter
               (fun en => decide ((0.85 : ℚ) < en.score))).map
               (fun en => en.word ++ " (" ++ en.entity_group ++ ")")
            if fe.isEmpty then "No entities found."
            else String.intercalate ", " fe)) }, false⟩ := by
  rw [dispatch]
  rw [if_neg (by simp [ner_not_translate text h])]
  rw [if_neg (by simp [ner_not_generate text h])]
  rw [if_pos (by simp [h])]
  rw [if_pos ⟨ha, hne⟩]

theorem chatStep_default_spec (u ts text : String) (C : Collaborators)
    (sender : WriterId) (reg : Registry)
    (h1 : pyStartsWith "!translate" text = false)
    (h2 : pyStartsWith "!generate" text = false)
    (h3 : pyStartsWith "!ner" text = false) :
    chatStep u ts text C sender reg (fun _ => false) =
      { response := { type := .chat_message,
                      username := some u,
                      timestamp := some ts,
                      message := some text,
                      sentiment := some ⟨(C.classify text).label,
                                         round2 (C.classify text).score⟩ },
        directDelivered := true,
        broadcastDeliv := ((reg.map Prod.fst).filter (fun w => !(w == sender))).map
          (fun w => (w, encodeLine { type := .chat_message,
                                     username := some u,
                                     timestamp := some ts,
                                     message := some text,
                                     sentiment := some ⟨(C.classify text).label,
                                       round2 (C.classify text).score⟩ })),
        registry := reg } := by
  rw [chatStep, dispatch_default u ts text C h1 h2 h3]
  dsimp only
  rw [show sendDirect { type := .chat_message,
                        username := some u,
                        timestamp := some ts,
                        message := some text,
                        sentiment := some ⟨(C.classify text).label,
                          round2 (C.classify text).score⟩ }
        sender reg (fun _ => false) = (true, reg) from rfl]
  rw [broadcast_all_alive _ _ _ rfl]
  simp

theorem chatStep_ner_spec (u ts text : String) (C : Collaborators)
    (sender : WriterId) (reg : Registry)
    (h : pyStartsWith "!ner" text = true)
    (ha : C.nerAvailable = true)
    (hne : pyStrip (pyDrop text 4) ≠ "") :
    chatStep u ts text C sender reg (fun _ => false) =
      { response := { type := .server_response,
                      username := some u,
                      timestamp := some ts,
                      message := some ("Entities Found: " ++
                        (let fe := ((C.extractEntities (pyStrip (pyDrop text 4))).filter
                            (fun en => decide ((0.85 : ℚ) < en.score))).map
                            (fun en => en.word ++ " (" ++ en.entity_group ++ ")")
                         if fe.isEmpty then "No entities found."
                         else String.intercalate ", " fe)) },
        directDelivered := true,
        broadcastDeliv := [],
        registry := reg } := by
  rw [chatStep, dispatch_ner u ts text C h ha hne]
  dsimp only
  rw [sendDirect]
  simp

/-- C1: the claim says `broadcast` delivers `chat_message` and
`server_notification` envelopes to every registered session except the
excluded one, and in particular that the "has joined" notification
reaches all other sessions after a successful handshake.  The code's
`broadcast` returns without writing anything for every envelope whose
type is not `chat_message`, so the join notification reaches nobody:
with bob registered and alice logging in successfully, the join broadcast
delivers to the empty list. -/
theorem c1_join_notification_dropped :
    broadcast { type := .server_notification,
                message := some "--- alice has joined the chat ---" }
        1 [(2, "bob"), (1, "alice")] (fun _ => false) =
      ([], [(2, "bob"), (1, "alice")]) ∧
    handleLogin (.jsonObject (some "login") (some "alice")) 50000 1 [(2, "bob")]
        (fun _ => false) =
      { outcome := .active "alice",
        sentToNew := [{ type := .server_notification,
                        message := some "Welcome, alice! You are connected to the ML Chat Hub." }],
        joinDelivered := [],
        registry := [(2, "bob"), (1, "alice")] } := by
  constructor
  · rfl
  · rfl

/-- C2: the claim says that when session "alice" disconnects, a
`server_notification` containing "alice" and indicating departure is
broadcast to all remaining sessions exactly once.  In the code the
`finally` block first deletes alice's registry entry and only then builds
the departure message by looking the username up in the registry, so the
message falls back to "A user"; and `broadcast` drops every
`server_notification`, so the remaining session bob receives nothing at
all. -/
theorem c2_leave_notification_dropped :
    disconnectCleanup 1 [(1, "alice"), (2, "bob")] (fun _ => false) =
      .ok ({ type := .server_notification,
             message := some "--- A user has left the chat ---" },
           [], [(2, "bob")]) := by
  rfl

/-- C3: the claim says removal of an already-absent handle is an
idempotent no-op.  The cleanup path of `handle_client` performs an
unguarded `del clients[writer]`, which raises `KeyError` when the handle
was already removed (for example by a broadcast write failure in another
task): on a registry holding only bob, cleaning up handle 1 errors
instead of being a no-op. -/
theorem c3_cleanup_remove_not_idempotent :
    delClient 1 [(2, "bob")] = .error () ∧
    disconnectCleanup 1 [(2, "bob")] (fun _ => false) = .error () := by
  constructor
  · rfl
  · rfl

/-- C4 counterexample: the claim says the handshake succeeds only if the
first envelope has type `login` AND a non-empty username.  The code only
checks the type: a `login` record with no username is accepted under the
default name `user_<port>`, and one with an empty username is accepted
with the empty username — both enter the registry. -/
theorem c4_counterexample :
    (handleLogin (.jsonObject (some "login") none) 8888 1 [] (fun _ => false)).outcome =
      .active "user_8888" ∧
    (handleLogin (.jsonObject (some "login") (some "")) 8888 1 []
        (fun _ => false)).outcome = .active "" ∧
    (handleLogin (.jsonObject (some "login") none) 8888 1 [] (fun _ => false)).registry =
      [(1, "user_8888")] := by
  refine ⟨rfl, rfl, rfl⟩

/-- C4 (amended): the handshake succeeds if and only if the first record
decodes as a JSON object whose `type` field is `"login"`; the username is
then taken from the record, defaulting to `user_<port>` when missing, and
an empty username is accepted.  A wrong type, malformed bytes or a closed
stream are a fatal handshake failure: the login error envelope is sent,
the connection is closed and the session never enters the registry. -/
theorem c4_handshake_amended (fr : FirstRead) (port : Nat) (w : WriterId)
    (reg : Registry) (dead : WriterId → Bool) :
    ((∃ u, (handleLogin fr port w reg dead).outcome = .active u) ↔
      (∃ u?, fr = .jsonObject (some "login") u?)) ∧
    (∀ u?, fr = .jsonObject (some "login") u? →
      (handleLogin fr port w reg dead).outcome =
        .active (u?.getD ("user_" ++ toString port))) ∧
    ((handleLogin fr port w reg dead).outcome = .rejected →
      (handleLogin fr port w reg dead).registry = reg ∧
      (handleLogin fr port w reg dead).sentToNew = [loginErrorEnv]) := by
  match fr with
  | .eof => simp [handleLogin]
  | .badJson => simp [handleLogin]
  | .nonObject => simp [handleLogin]
  | .jsonObject t? u? =>
    by_cases ht : t? = some "login"
    · subst ht
      simp [handleLogin]
    · simp [handleLogin, ht]

/-- C4 witness: instantiation of the amended handshake theorem at a
malformed first record and at a username-less login record. -/
theorem c4_handshake_amended_witness :
    ((handleLogin .badJson 8888 1 [] (fun _ => false)).registry = [] ∧
     (handleLogin .badJson 8888 1 [] (fun _ => false)).sentToNew = [loginErrorEnv]) ∧
    (handleLogin (.jsonObject (some "login") none) 8888 1 []
        (fun _ => false)).outcome =
      .active ((none : Option String).getD ("user_" ++ toString 8888)) :=
  ⟨(c4_handshake_amended .badJson 8888 1 [] (fun _ => false)).2.2 rfl,
   (c4_handshake_amended (.jsonObject (some "login") none) 8888 1 []
      (fun _ => false)).2.1 none rfl⟩

/-- C5: broadcasting a `chat_message` envelope over a registry snapshot
in which exactly one recipient's write fails still delivers the encoded
envelope to every other recipient, in snapshot order, and removes exactly
the failing recipient from the registry: the delivered list is the
non-sender snapshot minus the failing handle (one element shorter than
the full recipient list), and the resulting registry is the original with
exactly the failing entry removed. -/
theorem c5_broadcast_partial_failure (msg : Envelope) (sender w0 : WriterId)
    (reg : Registry) (dead : WriterId → Bool)
    (hty : msg.type = .chat_message)
    (hnd : (reg.map Prod.fst).Nodup)
    (hmem : w0 ∈ reg.map Prod.fst)
    (hw0s : w0 ≠ sender)
    (hdead : dead w0 = true)
    (honly : ∀ w ∈ reg.map Prod.fst, w ≠ sender → w ≠ w0 → dead w = false) :
    (broadcast msg sender reg dead).1 =
      (((reg.map Prod.fst).filter (fun w => !(w == sender))).filter
        (fun w => !(w == w0))).map (fun w => (w, encodeLine msg)) ∧
    (broadcast msg sender reg dead).2 = removeClient w0 reg ∧
    (((reg.map Prod.fst).filter (fun w => !(w == sender))).filter
      (fun w => !(w == w0))).length + 1 =
      ((reg.map Prod.fst).filter (fun w => !(w == sender))).length := by
  have hbc : broadcast msg sender reg dead =
      broadcastGo (encodeLine msg) sender dead (reg.map Prod.fst) reg := by
    rw [broadcast, if_neg (by simp [hty])]
  rw [hbc, broadcastGo_eq]
  refine ⟨?_, ?_, ?_⟩
  · simp only [List.filter_filter]
    congr 1
    apply List.filter_congr
    intro w hw
    by_cases hws : w = sender
    · simp [hws]
    · by_cases hw0 : w = w0
      · subst hw0
        simp [hws, hdead]
      · simp [hws, hw0, honly w hw hws hw0]
  · have hrem : (reg.map Prod.fst).filter (fun w => !(w == sender) && dead w) =
        (reg.map Prod.fst).filter (fun w => w == w0) := by
      apply List.filter_congr
      intro w hw
      by_cases hw0 : w = w0
      · subst hw0
        simp [hw0s, hdead]
      · by_cases hws : w = sender
        · have hsw0 : ¬ sender = w0 := fun hc => hw0 (hws.trans hc)
          simp [hws, hsw0]
        · simp [hws, hw0, honly w hw hws hw0]
    rw [hrem, filter_eq_singleton w0 _ hnd hmem]
    rfl
  · apply length_filter_ne
    · exact hnd.filter _
    · rw [List.mem_filter]
      exact ⟨hmem, by simp [hw0s]⟩

/-- C5 witness: four sessions, sender 1, the write to handle 3 fails;
the broadcast delivers to 2 and 4 and removes exactly session 3. -/
theorem c5_broadcast_partial_failure_witness :
    sampleEnvelope.type = .chat_message ∧
    (broadcast sampleEnvelope 1 [(1, "a"), (2, "b"), (3, "c"), (4, "d")]
        (fun w => w == 3)).2 =
      removeClient 3 [(1, "a"), (2, "b"), (3, "c"), (4, "d")] ∧
    (broadcast sampleEnvelope 1 [(1, "a"), (2, "b"), (3, "c"), (4, "d")]
        (fun w => w == 3)).1 =
      ((([(1, "a"), (2, "b"), (3, "c"), (4, "d")] : Registry).map Prod.fst).filter
          (fun w => !(w == 1)) |>.filter (fun w => !(w == 3))).map
        (fun w => (w, encodeLine sampleEnvelope)) :=
  ⟨rfl,
   (c5_broadcast_partial_failure sampleEnvelope 1 3 _ _ rfl (by decide) (by decide)
      (by decide) (by decide) (by decide)).2.1,
   (c5_broadcast_partial_failure sampleEnvelope 1 3 _ _ rfl (by decide) (by decide)
      (by decide) (by decide) (by decide)).1⟩

/-- C6: for a logged-in sender and a chat text with no recognized command
prefix, the dispatcher builds a `chat_message` envelope carrying the text
and a `{label, score}` sentiment whose score is the collaborator's score
rounded to two decimal places, sends that envelope directly to the sender
(successfully, when the sender's stream is alive), and broadcasts the
same encoded envelope to every other session in the registry. -/
theorem c6_default_sentiment_path (u ts text : String) (C : Collaborators)
    (sender : WriterId) (reg : Registry)
    (h1 : pyStartsWith "!translate" text = false)
    (h2 : pyStartsWith "!generate" text = false)
    (h3 : pyStartsWith "!ner" text = false) :
    chatStep u ts text C sender reg (fun _ => false) =
      { response := { type := .chat_message,
                      username := some u,
                      timestamp := some ts,
                      message := some text,
                      sentiment := some ⟨(C.classify text).label,
                                         round2 (C.classify text).score⟩ },
        directDelivered := true,
        broadcastDeliv := ((reg.map Prod.fst).filter (fun w => !(w == sender))).map
          (fun w => (w, encodeLine { type := .chat_message,
                                     username := some u,
                                     timestamp := some ts,
                                     message := some text,
                                     sentiment := some ⟨(C.classify text).label,
                                       round2 (C.classify text).score⟩ })),
        registry := reg } :=
  chatStep_default_spec u ts text C sender reg h1 h2 h3

/-- C6 witness: the spec's own example, "I love this" with the sentiment
collaborator answering POSITIVE 0.99: the chat envelope goes to the
sender and is broadcast to the one other session. -/
theorem c6_default_sentiment_path_witness :
    pyStartsWith "!translate" "I love this" = false ∧
    pyStartsWith "!generate" "I love this" = false ∧
    pyStartsWith "!ner" "I love this" = false ∧
    chatStep "alice" "T1" "I love this" sampleCollab 1 [(1, "alice"), (2, "bob")]
        (fun _ => false) =
      { response := { type := .chat_message,
                      username := some "alice",
                      timestamp := some "T1",
                      message := some "I love this",
                      sentiment := some ⟨"POSITIVE", 99⟩ },
        directDelivered := true,
        broadcastDeliv := [(2, encodeLine { type := .chat_message,
                                            username := some "alice",
                                            timestamp := some "T1",
                                            message := some "I love this",
                                            sentiment := some ⟨"POSITIVE", 99⟩ })],
        registry := [(1, "alice"), (2, "bob")] } :=
  ⟨by decide, by decide, by decide, by
    rw [c6_default_sentiment_path "alice" "T1" "I love this" sampleCollab 1
        [(1, "alice"), (2, "bob")] (by decide) (by decide) (by decide)]
    have hl : (sampleCollab.classify "I love this").label = "POSITIVE" := rfl
    have hr : round2 (sampleCollab.classify "I love this").score = 99 := by
      show round2 ((99 : ℚ)/100) = 99
      rw [round2, roundHalfEven]
      norm_num
    rw [hl, hr]
    decide⟩

/-- C7: the codec round-trip law: decoding the encoded line of any
wire-valid envelope returns exactly that envelope; and a line that fails
to decode is answered inside the main loop by a direct `error` envelope
("Received malformed JSON.") to the sender only, with no broadcast and no
registry change — the decode failure never propagates. -/
theorem c7_codec_roundtrip :
    (∀ e : Envelope, validScore e = true → decodeLine (encodeLine e) = some e) ∧
    (∀ (u ts : String) (C : Collaborators) (sender : WriterId) (reg : Registry),
      mainStep u ts .malformed C sender reg (fun _ => false) =
        { response := { type := .error, message := some "Received malformed JSON." },
          directDelivered := true,
          broadcastDeliv := [],
          registry := reg }) := by
  constructor
  · exact decode_encode
  · intro u ts C sender reg
    rfl

/-- C7 witness: the round-trip law evaluated on a concrete envelope with
every field populated. -/
theorem c7_codec_roundtrip_witness :
    validScore sampleEnvelope = true ∧
    decodeLine (encodeLine sampleEnvelope) = some sampleEnvelope :=
  ⟨by decide, c7_codec_roundtrip.1 sampleEnvelope (by decide)⟩

/-- C8 counterexample: the claim says the dispatcher keeps exactly the
entities whose confidence is NOT BELOW the 0.85 threshold.  The code
filters with a strict `score > 0.85`, so an entity whose score is exactly
0.85 — not below the threshold — is discarded: with the extractor
returning a single entity of score 17/20 = 0.85, the reply is
"No entities found." instead of listing it. -/
theorem c8_counterexample :
    ((17 : ℚ)/20 = 0.85) ∧
    sampleCollab.extractEntities "Bob" = [⟨"Bob", "PER", 17/20⟩] ∧
    (dispatch "alice" "T1" "!ner Bob" sampleCollab).response.message =
      some "Entities Found: No entities found." := by
  refine ⟨by norm_num, rfl, ?_⟩
  rw [dispatch_ner "alice" "T1" "!ner Bob" sampleCollab (by decide) rfl (by decide)]
  have htrim : pyStrip (pyDrop "!ner Bob" 4) = "Bob" := by decide
  have hflt : (sampleCollab.extractEntities (pyStrip (pyDrop "!ner Bob" 4))).filter
      (fun en => decide ((0.85 : ℚ) < en.score)) = [] := by
    rw [htrim]
    show List.filter _ [NerEntity.mk "Bob" "PER" (17/20)] = []
    rw [List.filter_cons]
    norm_num
  simp [hflt]

/-- C8 (amended): for every `!ner <text>` request with non-empty text and
an available extractor, the dispatcher keeps exactly the extracted
entities whose confidence score is STRICTLY ABOVE the 0.85 threshold,
joins them as "word (group)" with commas (or the literal
"No entities found." when none remain), and sends the result as a direct
`server_response` to the asker only: it is delivered directly, nothing is
broadcast, and the registry is untouched. -/
theorem c8_ner_threshold_amended (u ts text : String) (C : Collaborators)
    (sender : WriterId) (reg : Registry)
    (h : pyStartsWith "!ner" text = true)
    (ha : C.nerAvailable = true)
    (hne : pyStrip (pyDrop text 4) ≠ "") :
    chatStep u ts text C sender reg (fun _ => false) =
      { response := { type := .server_response,
                      username := some u,
                      timestamp := some ts,
                      message := some ("Entities Found: " ++
                        (let fe := ((C.extractEntities (pyStrip (pyDrop text 4))).filter
                            (fun en => decide ((0.85 : ℚ) < en.score))).map
                            (fun en => en.word ++ " (" ++ en.entity_group ++ ")")
                         if fe.isEmpty then "No entities found."
                         else String.intercalate ", " fe)) },
        directDelivered := true,
        broadcastDeliv := [],
        registry := reg } :=
  chatStep_ner_spec u ts text C sender reg h ha hne

/-- C8 witness: instantiation of the amended `!ner` theorem on the
request `!ner Bob` with the sample extractor. -/
theorem c8_ner_threshold_amended_witness :
    pyStartsWith "!ner" "!ner Bob" = true ∧
    sampleCollab.nerAvailable = true ∧
    pyStrip (pyDrop "!ner Bob" 4) ≠ "" ∧
    chatStep "alice" "T1" "!ner Bob" sampleCollab 1 [(1, "alice"), (2, "bob")]
        (fun _ => false) =
      { response := { type := .server_response,
                      username := some "alice",
                      timestamp := some "T1",
                      message := some ("Entities Found: " ++
                        (let fe := ((sampleCollab.extractEntities
                              (pyStrip (pyDrop "!ner Bob" 4))).filter
                            (fun en => decide ((0.85 : ℚ) < en.score))).map
                            (fun en => en.word ++ " (" ++ en.entity_group ++ ")")
                         if fe.isEmpty then "No entities found."
                         else String.intercalate ", " fe)) },
        directDelivered := true,
        broadcastDeliv := [],
        registry := [(1, "alice"), (2, "bob")] } :=
  ⟨by decide, rfl, by decide,
   c8_ner_threshold_amended "alice" "T1" "!ner Bob" sampleCollab 1
     [(1, "alice"), (2, "bob")] (by decide) rfl (by decide)⟩

/-- C9 counterexample: the claim says a post-login record with no `type`
field is ignored (no outbound envelope, no broadcast).  The main loop in
fact never consults `type`: a record with neither `type` nor `message`
is dispatched as an empty chat message on the default sentiment path —
it produces a `chat_message` response and broadcasts it to the other
session. -/
theorem c9_counterexample :
    (mainStep "alice" "T1" (.record none none) sampleCollab 1
        [(1, "alice"), (2, "bob")] (fun _ => false)).response.type =
      .chat_message ∧
    (mainStep "alice" "T1" (.record none none) sampleCollab 1
        [(1, "alice"), (2, "bob")] (fun _ => false)).broadcastDeliv ≠ [] := by
  have hstep : mainStep "alice" "T1" (.record none none) sampleCollab 1
      [(1, "alice"), (2, "bob")] (fun _ => false) =
      chatStep "alice" "T1" "" sampleCollab 1 [(1, "alice"), (2, "bob")]
        (fun _ => false) := rfl
  rw [hstep, chatStep_default_spec "alice" "T1" "" sampleCollab 1
      [(1, "alice"), (2, "bob")] (by decide) (by decide) (by decide)]
  constructor
  · rfl
  · simp

/-- C9 (amended): after login the server never consults the `type` field
of a received record: every decoded record — its `type` present or
absent — is dispatched on its `message` field alone (missing `message`
is treated as empty text).  In particular a record whose stripped message
text has no recognized command prefix is processed as a chat message:
sentiment is attached, the envelope goes directly to the sender and is
broadcast to every other session. -/
theorem c9_type_field_ignored (u ts : String) (t? m? : Option String)
    (C : Collaborators) (sender : WriterId) (reg : Registry)
    (h1 : pyStartsWith "!translate" (pyStrip (m?.getD "")) = false)
    (h2 : pyStartsWith "!generate" (pyStrip (m?.getD "")) = false)
    (h3 : pyStartsWith "!ner" (pyStrip (m?.getD "")) = false) :
    mainStep u ts (.record t? m?) C sender reg (fun _ => false) =
      { response := { type := .chat_message,
                      username := some u,
                      timestamp := some ts,
                      message := some (pyStrip (m?.getD "")),
                      sentiment := some ⟨(C.classify (pyStrip (m?.getD ""))).label,
                        round2 (C.classify (pyStrip (m?.getD ""))).score⟩ },
        directDelivered := true,
        broadcastDeliv := ((reg.map Prod.fst).filter (fun w => !(w == sender))).map
          (fun w => (w, encodeLine { type := .chat_message,
                                     username := some u,
                                     timestamp := some ts,
                                     message := some (pyStrip (m?.getD "")),
                                     sentiment := some
                                       ⟨(C.classify (pyStrip (m?.getD ""))).label,
                                        round2 (C.classify (pyStrip (m?.getD ""))).score⟩ })),
        registry := reg } := by
  have hstep : mainStep u ts (.record t? m?) C sender reg (fun _ => false) =
      chatStep u ts (pyStrip (m?.getD "")) C sender reg (fun _ => false) := rfl
  rw [hstep]
  exact chatStep_default_spec u ts (pyStrip (m?.getD "")) C sender reg h1 h2 h3

/-- C9 witness: instantiation of the amended theorem at a record with
absent type and message "hello there". -/
theorem c9_type_field_ignored_witness :
    pyStartsWith "!translate" (pyStrip ((some "hello there").getD "")) = false ∧
    pyStartsWith "!generate" (pyStrip ((some "hello there").getD "")) = false ∧
    pyStartsWith "!ner" (pyStrip ((some "hello there").getD "")) = false ∧
    mainStep "alice" "T1" (.record none (some "hello there")) sampleCollab 1
        [(1, "alice"), (2, "bob")] (fun _ => false) =
      { response := { type := .chat_message,
                      username := some "alice",
                      timestamp := some "T1",
                      message := some (pyStrip ((some "hello there").getD "")),
                      sentiment := some
                        ⟨(sampleCollab.classify (pyStrip ((some "hello there").getD ""))).label,
                         round2 (sampleCollab.classify (pyStrip ((some "hello there").getD ""))).score⟩ },
        directDelivered := true,
        broadcastDeliv := (((([(1, "alice"), (2, "bob")] : Registry).map Prod.fst)).filter
            (fun w => !(w == 1))).map
          (fun w => (w, encodeLine { type := .chat_message,
                                     username := some "alice",
                                     timestamp := some "T1",
                                     message := some (pyStrip ((some "hello there").getD "")),
                                     sentiment := some
                                       ⟨(sampleCollab.classify
                                           (pyStrip ((some "hello there").getD ""))).label,
                                        round2 (sampleCollab.classify
                                           (pyStrip ((some "hello there").getD ""))).score⟩ })),
        registry := [(1, "alice"), (2, "bob")] } :=
  ⟨by decide, by decide, by decide,
   c9_type_field_ignored "alice" "T1" none (some "hello there") sampleCollab 1
     [(1, "alice"), (2, "bob")] (by decide) (by decide) (by decide)⟩

/-- C10: every envelope the command dispatcher produces for a well-formed
inbound record — `server_response`, `error` or `chat_message`, on every
one of its routes — carries the sending session's username and the
timestamp of the base response dict. -/
theorem c10_dispatcher_envelope_fields (u ts text : String) (C : Collaborators) :
    (dispatch u ts text C).response.username = some u ∧
    (dispatch u ts text C).response.timestamp = some ts := by
  rw [dispatch]
  split
  · dsimp only
    split
    · simp
    · split <;> simp
  · split
    · dsimp only
      split <;> simp
    · split
      · dsimp only
        split <;> simp
      · simp
